import Mathlib

/-!
Shallow embedding of the game logic of `Minimal/main.cpp` (a VR
whack-a-mole demo).  The per-frame logic of `ExampleApp::renderScene`,
the target picker `ExampleApp::random_Highlight`, the sphere grid of
`ColorSphereScene`, and the key handlers `GlfwApp::onKey` /
`RiftApp::onKey` are translated into pure Lean functions.  Floating
point positions are embedded as rationals; the C runtime clock is an
integer tick counter; the `rand()` stream is an explicit list of draws.
-/

namespace WhackAMole

/-- A 3-component vector (embedding of `glm::vec3`) with rational
coordinates. -/
structure Vec3 where
  x : ℚ
  y : ℚ
  z : ℚ
deriving DecidableEq, Repr

/-- A quaternion (embedding of `ovrQuatf`), used for the left-hand
orientation in the grab transform. -/
structure Quat where
  x : ℚ
  y : ℚ
  z : ℚ
  w : ℚ
deriving DecidableEq, Repr

/-- `GRID_SIZE` from `ColorSphereScene` (main.cpp line 629). -/
def GRID_SIZE : Nat := 5

/-- `NUM_SPHERES` from `ExampleApp` (main.cpp line 751). -/
def NUM_SPHERES : Nat := 125

/-- `spheres_positions` built in the `ColorSphereScene` constructor
(main.cpp lines 635-647): three nested loops, `z` outermost and `x`
innermost, pushing `0.14f * (x, y, z)`.  `0.14` is embedded as `7/50`. -/
def spheres_positions : List Vec3 :=
  (List.range GRID_SIZE).flatMap fun z =>
    (List.range GRID_SIZE).flatMap fun y =>
      (List.range GRID_SIZE).map fun x =>
        ⟨(7 : ℚ)/50 * x, (7 : ℚ)/50 * y, (7 : ℚ)/50 * z⟩

/-- Lookup `sphereScene->spheres_positions[i]` (main.cpp line 861).  The
C++ index is an `int`; the game invariant keeps it in `[0, 125)`, so the
default value is never reached on reachable states. -/
def spherePosAt (i : Int) : Vec3 := spheres_positions.getD i.toNat ⟨0, 0, 0⟩

/-- Squared Euclidean distance.  Lines 864-866 compute
`dist = sqrt((px-hx)^2 + (py-hy)^2 + (pz-hz)^2)`; the embedding keeps the
square, which determines `dist` over the nonnegative reals. -/
def distSq (p h : Vec3) : ℚ :=
  (p.x - h.x) * (p.x - h.x) + (p.y - h.y) * (p.y - h.y) +
    (p.z - h.z) * (p.z - h.z)

/-- The proximity threshold `0.055f` of main.cpp line 871, as `11/200`. -/
def hitThreshold : ℚ := 55/1000

/-- The collision predicate of line 871: `dist < 0.055f`.  Over the
reals, for a nonnegative radicand `d` and positive threshold `c`,
`sqrt d < c` holds iff `d < c * c`, so the strict comparison on the
square is the faithful rendering of the strict comparison in the code. -/
def collides (p h : Vec3) : Bool :=
  decide (distSq p h < hitThreshold * hitThreshold)

/-- Clock ticks per second of the C runtime used by
`(std::clock() - start) / (double)CLOCKS_PER_SEC` (line 877); 1000 on the
Windows CRT this project builds against.  Only its positivity matters to
the statements below. -/
def clocksPerSec : Int := 1000

/-- The game state owned by `ExampleApp`: `GameState` (line 721),
`selectedSphere` (line 738), `collider` (line 741), `start` (line 744)
and `score` (line 748). -/
structure GameSt where
  gameState : Bool
  selectedSphere : Int
  collider : Bool
  start : Int
  score : Int
deriving DecidableEq, Repr

/-- The constructed `ExampleApp` (line 762): `GameState = false`,
`selectedSphere = -1`, `score = 0`.  `collider` and `start` are
default-initialized in C++ and are never read before first being
written (both are written by the first game start before any read); the
embedding fixes them at `false` and `0`. -/
def initialState : GameSt :=
  { gameState := false
    selectedSphere := -1
    collider := false
    start := 0
    score := 0 }

/-- `duration = (std::clock() - start) / (double)CLOCKS_PER_SEC`
(line 877), with `now` the frame's clock sample. -/
def duration (s : GameSt) (now : Int) : ℚ :=
  ((now - s.start : Int) : ℚ) / (clocksPerSec : ℚ)

/-- One frame's worth of host input, as sampled by `renderScene`:
the success flags of the three `ovr_GetInputState` calls (lines 815, 841
and 870), the `ovrButton_X` and `ovrTouch_RIndexTrigger` bits, the two
hand poses, the clock sample, and the stream of `rand()` draws the frame
may consume. -/
structure FrameInput where
  grabOk : Bool
  startOk : Bool
  hitOk : Bool
  buttonX : Bool
  rIndexTouch : Bool
  handRight : Vec3
  handLeftPos : Vec3
  handLeftRot : Quat
  now : Int
  rands : List Nat
deriving DecidableEq, Repr

/-- The quaternion-to-rotation-matrix of lines 826-829 (a `glm::mat4`
constructor, column-major) applied to a vector. -/
def quatRotate (q : Quat) (v : Vec3) : Vec3 :=
  ⟨(1 - 2*q.y*q.y - 2*q.z*q.z) * v.x + (2*q.x*q.y - 2*q.w*q.z) * v.y +
      (2*q.x*q.z + 2*q.w*q.y) * v.z,
   (2*q.x*q.y + 2*q.w*q.z) * v.x + (1 - 2*q.x*q.x - 2*q.z*q.z) * v.y +
      (2*q.y*q.z - 2*q.w*q.x) * v.z,
   (2*q.x*q.z - 2*q.w*q.y) * v.x + (2*q.y*q.z + 2*q.w*q.x) * v.y +
      (1 - 2*q.x*q.x - 2*q.y*q.y) * v.z⟩

/-- `LHOrientationPosition` (lines 814-837) applied to a point:
`translate * rotate` when the input query succeeded and `ovrButton_X` is
held, the identity when the button is up, and the matrix's
default-constructed value (identity in the GLM shipped with the course
skeleton) when the query failed. -/
def grabbedPos (inp : FrameInput) (p : Vec3) : Vec3 :=
  if inp.grabOk && inp.buttonX then
    let r := quatRotate inp.handLeftRot p
    ⟨r.x + inp.handLeftPos.x, r.y + inp.handLeftPos.y,
      r.z + inp.handLeftPos.z⟩
  else p

/-- The rejection-sampling loop of `random_Highlight` (lines 932-937):
draw `rand() % 125` and redraw while the draw equals the previous
selection.  The draws come from the explicit list; `none` means the list
was exhausted with every draw equal to the previous selection (the C++
loop would still be spinning).  The `srand(time(NULL))` re-seeding only
changes which stream `rand()` produces and is absorbed into the list. -/
def drawUntilDifferent : List Nat → Int → Option (Int × List Nat)
  | [], _ => none
  | n :: rest, prev =>
    if ((n : Int) % 125) = prev then drawUntilDifferent rest prev
    else some ((n : Int) % 125, rest)

/-- `ExampleApp::random_Highlight` (lines 929-945): set `selectedSphere`
to a fresh draw differing from the previous one and reset `collider` to
`false`. -/
def random_Highlight (s : GameSt) (rands : List Nat) :
    Option (GameSt × List Nat) :=
  match drawUntilDifferent rands s.selectedSphere with
  | none => none
  | some (n, rest) =>
    some ({ s with selectedSphere := n, collider := false }, rest)

/-- Lines 840-855: while `GameState == false`, a successful input query
showing `ovrTouch_RIndexTrigger` starts the game: `GameState = true`,
`start = std::clock()`, `random_Highlight()`, `score = 0`, in that
order. -/
def startStep (s : GameSt) (inp : FrameInput) :
    Option (GameSt × List Nat) :=
  if inp.startOk && !s.gameState && inp.rIndexTouch then
    match random_Highlight
        { s with gameState := true, start := inp.now } inp.rands with
    | none => none
    | some (s₁, rest) => some ({ s₁ with score := 0 }, rest)
  else some (s, inp.rands)

/-- The condition of lines 870-871: a successful input query, the
(optionally grab-transformed) selected sphere within `0.055` of the
right hand, and the trigger touched. -/
def hitCond (s : GameSt) (inp : FrameInput) : Bool :=
  inp.hitOk &&
    collides (grabbedPos inp (spherePosAt s.selectedSphere)) inp.handRight &&
    inp.rIndexTouch

/-- Lines 858-891: while `GameState` holds, run the center-distance test
(a successful input query with `dist < 0.055f` and the trigger touched
sets `collider = true`), then the timeout test (`duration >= 60` resets
`GameState`, `start`, `selectedSphere` and `score`).  The two
`std::clock()` calls of a frame (lines 847 and 877) are modelled as the
same tick `inp.now`. -/
def activeStep (s : GameSt) (inp : FrameInput) : GameSt :=
  if s.gameState then
    let s₁ :=
      if hitCond s inp then
        { s with collider := true }
      else s
    if 60 ≤ duration s₁ inp.now then
      { s₁ with
        gameState := false
        start := 0
        selectedSphere := -1
        score := 0 }
    else s₁
  else s

/-- The render loop of lines 895-920 over sphere indices `0 .. 124`:
when the game is on, index `i` equals `selectedSphere` and `collider` is
set, the hit fires: `random_Highlight()` then `score++`.  (The
`highlight`/`unhighlight` shader switches are pure rendering and carry
no game state.) -/
def renderLoop : GameSt → List Nat → List Nat → Option (GameSt × List Nat)
  | s, rands, [] => some (s, rands)
  | s, rands, i :: is =>
    if s.gameState && ((i : Int) == s.selectedSphere) && s.collider then
      match random_Highlight s rands with
      | none => none
      | some (s₁, rest) =>
        renderLoop { s₁ with score := s₁.score + 1 } rest is
    else renderLoop s rands is

/-- One full frame of `ExampleApp::renderScene` (lines 791-926) acting
on the game state: the game-start check, the active-game
collision/timeout block, then the render loop that consumes a pending
hit. -/
def stepFrame (s : GameSt) (inp : FrameInput) : Option GameSt :=
  match startStep s inp with
  | none => none
  | some (s₁, rands₁) =>
    match renderLoop (activeStep s₁ inp) rands₁ (List.range NUM_SPHERES) with
    | none => none
    | some (s₂, _) => some s₂

/-- The frame-boundary invariant of the game state: the active flag is
false exactly when no sphere is selected, an active game always has a
selection in `[0, 125)`, and a pending hit never survives a frame while
the game is on. -/
def Inv (s : GameSt) : Prop :=
  (s.gameState = false ↔ s.selectedSphere = -1) ∧
  (s.gameState = true → 0 ≤ s.selectedSphere ∧ s.selectedSphere < 125) ∧
  (s.gameState = true → s.collider = false)

instance (s : GameSt) : Decidable (Inv s) := by
  unfold Inv; infer_instance

/-- Effects a key event can have on application or window state. -/
inductive KeyEffect where
  | closeWindow
  | recenterTracking
  | noEffect
deriving DecidableEq, Repr

/-- `GLFW_PRESS`. -/
def GLFW_PRESS : Int := 1

/-- `GLFW_KEY_ESCAPE`. -/
def GLFW_KEY_ESCAPE : Int := 256

/-- `GLFW_KEY_R`. -/
def GLFW_KEY_R : Int := 82

/-- `GlfwApp::onKey` (lines 280-290): non-press actions are ignored;
escape closes the window; every other key falls out of the switch with
no effect. -/
def glfwApp_onKey (key action : Int) : KeyEffect :=
  if action ≠ GLFW_PRESS then KeyEffect.noEffect
  else if key = GLFW_KEY_ESCAPE then KeyEffect.closeWindow
  else KeyEffect.noEffect

/-- `RiftApp::onKey` (lines 545-554): on a press of `R`, recenter the
tracking origin and return; otherwise delegate to `GlfwApp::onKey`. -/
def riftApp_onKey (key action : Int) : KeyEffect :=
  if action = GLFW_PRESS ∧ key = GLFW_KEY_R then KeyEffect.recenterTracking
  else glfwApp_onKey key action

/-- A concrete frame input: game-start trigger touch with the right hand
at the origin, where sphere 0 sits. -/
def inpStart : FrameInput :=
  { grabOk := false
    startOk := true
    hitOk := true
    buttonX := false
    rIndexTouch := true
    handRight := ⟨0, 0, 0⟩
    handLeftPos := ⟨0, 0, 0⟩
    handLeftRot := ⟨0, 0, 0, 1⟩
    now := 0
    rands := [0, 1] }

/-- A concrete frame input: game-start trigger touch with the right hand
far from every sphere. -/
def inpStartFar : FrameInput :=
  { inpStart with handRight := ⟨-1, -1, -1⟩, rands := [3] }

/-- A concrete active game state with score 5 and sphere 0 selected. -/
def sActive : GameSt :=
  { gameState := true
    selectedSphere := 0
    collider := false
    start := 0
    score := 5 }

/-- A concrete frame input: clock at 60 seconds past round start, hand
on the selected sphere, trigger touched (a pending hit at timeout). -/
def inpTimeoutHit : FrameInput :=
  { inpStart with startOk := false, now := 60000, rands := [1] }

/-- A concrete frame input: one second into the round, hand on the
selected sphere, trigger touched. -/
def inpHit : FrameInput :=
  { inpStart with startOk := false, now := 1000, rands := [1] }

/-- A concrete frame input: one second into the round, hand at distance
exactly `0.055` from sphere 0, trigger touched. -/
def inpBoundary : FrameInput :=
  { inpStart with
    startOk := false
    handRight := ⟨55/1000, 0, 0⟩
    now := 1000
    rands := [1] }

/-- A concrete frame input with no trigger touch and the hand far away. -/
def inpIdle : FrameInput :=
  { inpStartFar with rIndexTouch := false }

/-- The state `random_Highlight` leaves right after a game start with
draw `n`: game on, round started at `now`, sphere `n` selected, debounce
clear, score zeroed. -/
def startedState (now n : Int) : GameSt :=
  { gameState := true
    selectedSphere := n
    collider := false
    start := now
    score := 0 }

/-- The frame input as seen when every `ovr_GetInputState` call of the
frame fails: the guarded blocks read no input bits at all. -/
def failedInput (inp : FrameInput) : FrameInput :=
  { inp with grabOk := false, startOk := false, hitOk := false }

/-- The frame input as seen when every query succeeds but reports no
held button and no trigger touch. -/
def noTouchInput (inp : FrameInput) : FrameInput :=
  { inp with buttonX := false, rIndexTouch := false }

theorem drawUntilDifferent_spec :
    ∀ (rands : List Nat) (prev n : Int) (rest : List Nat),
      drawUntilDifferent rands prev = some (n, rest) →
      0 ≤ n ∧ n < 125 ∧ n ≠ prev := by
  intro rands
  induction rands with
  | nil =>
    intro prev n rest h
    simp [drawUntilDifferent] at h
  | cons k tl ih =>
    intro prev n rest h
    by_cases hk : ((k : Int) % 125) = prev
    · rw [drawUntilDifferent, if_pos hk] at h
      exact ih prev n rest h
    · rw [drawUntilDifferent, if_neg hk] at h
      simp only [Option.some.injEq, Prod.mk.injEq] at h
      obtain ⟨h1, -⟩ := h
      subst h1
      exact ⟨Int.emod_nonneg _ (by norm_num),
        Int.emod_lt_of_pos _ (by norm_num), hk⟩

theorem random_Highlight_spec {s : GameSt} {rands : List Nat}
    {s₁ : GameSt} {rest : List Nat}
    (h : random_Highlight s rands = some (s₁, rest)) :
    0 ≤ s₁.selectedSphere ∧ s₁.selectedSphere < 125 ∧
      s₁.selectedSphere ≠ s.selectedSphere ∧ s₁.collider = false ∧
      s₁.gameState = s.gameState ∧ s₁.start = s.start ∧
      s₁.score = s.score := by
  unfold random_Highlight at h
  cases hd : drawUntilDifferent rands s.selectedSphere with
  | none => rw [hd] at h; simp at h
  | some p =>
    obtain ⟨n, r⟩ := p
    rw [hd] at h
    simp only [Option.some.injEq, Prod.mk.injEq] at h
    obtain ⟨h1, -⟩ := h
    obtain ⟨hn0, hn1, hne⟩ := drawUntilDifferent_spec rands s.selectedSphere n r hd
    subst h1
    exact ⟨hn0, hn1, hne, rfl, rfl, rfl, rfl⟩

theorem renderLoop_skip :
    ∀ (l : List Nat) (s : GameSt) (rands : List Nat),
      s.collider = false ∨ s.gameState = false →
      renderLoop s rands l = some (s, rands) := by
  intro l
  induction l with
  | nil => intro s rands _; rfl
  | cons i is ih =>
    intro s rands h
    have hcond :
        (s.gameState && ((i : Int) == s.selectedSphere) && s.collider) =
          false := by
      rcases h with h | h <;> simp [h]
    rw [renderLoop, hcond]
    simp only [Bool.false_eq_true, if_false]
    exact ih s rands h

theorem renderLoop_preserves :
    ∀ (l : List Nat) (s : GameSt) (rands : List Nat) (s₁ : GameSt)
      (rest : List Nat),
      renderLoop s rands l = some (s₁, rest) →
      s₁.gameState = s.gameState ∧ s₁.start = s.start ∧
        s.score ≤ s₁.score := by
  intro l
  induction l with
  | nil =>
    intro s rands s₁ rest h
    simp only [renderLoop, Option.some.injEq, Prod.mk.injEq] at h
    obtain ⟨h1, -⟩ := h
    subst h1
    exact ⟨rfl, rfl, le_refl _⟩
  | cons i is ih =>
    intro s rands s₁ rest h
    rw [renderLoop] at h
    by_cases hcond :
        (s.gameState && ((i : Int) == s.selectedSphere) && s.collider) =
          true
    · rw [hcond, if_pos rfl] at h
      cases hrh : random_Highlight s rands with
      | none => rw [hrh] at h; simp at h
      | some p =>
        obtain ⟨s₂, r₂⟩ := p
        rw [hrh] at h
        obtain ⟨hg, hst, hsc⟩ := ih _ _ _ _ h
        obtain ⟨-, -, -, -, hg2, hst2, hsc2⟩ := random_Highlight_spec hrh
        refine ⟨by simpa [hg2] using hg, by simpa [hst2] using hst, ?_⟩
        have : s₂.score + 1 ≤ s₁.score := by simpa using hsc
        omega
    · have hcond' :
          (s.gameState && ((i : Int) == s.selectedSphere) && s.collider) =
            false := by
        simpa using hcond
      rw [hcond'] at h
      simp only [Bool.false_eq_true, if_false] at h
      exact ih _ _ _ _ h

theorem renderLoop_hit :
    ∀ (l : List Nat) (s : GameSt) (rands : List Nat),
      s.gameState = true → s.collider = true →
      (∃ i ∈ l, (i : Int) = s.selectedSphere) →
      renderLoop s rands l =
        (random_Highlight s rands).map
          (fun p => ({ p.1 with score := p.1.score + 1 }, p.2)) := by
  intro l
  induction l with
  | nil =>
    intro s rands _ _ hmem
    simp at hmem
  | cons i is ih =>
    intro s rands hg hc hmem
    by_cases hi : (i : Int) = s.selectedSphere
    · have hcond :
          (s.gameState && ((i : Int) == s.selectedSphere) && s.collider) =
            true := by
        simp [hg, hc, hi]
      rw [renderLoop, hcond, if_pos rfl]
      cases hrh : random_Highlight s rands with
      | none => simp
      | some p =>
        obtain ⟨s₂, r₂⟩ := p
        obtain ⟨-, -, -, hcol, -, -, -⟩ := random_Highlight_spec hrh
        exact renderLoop_skip is { s₂ with score := s₂.score + 1 } r₂
          (Or.inl (by simpa using hcol))
    · have hmem' : ∃ j ∈ is, (j : Int) = s.selectedSphere := by
        rcases hmem with ⟨j, hj, hje⟩
        rcases List.mem_cons.mp hj with rfl | htl
        · exact absurd hje hi
        · exact ⟨j, htl, hje⟩
      have hcond :
          (s.gameState && ((i : Int) == s.selectedSphere) && s.collider) =
            false := by
        simp [hi]
      rw [renderLoop, hcond]
      simp only [Bool.false_eq_true, if_false]
      exact ih s rands hg hc hmem'

theorem startStep_skip {s : GameSt} {inp : FrameInput}
    (h : s.gameState = true ∨ inp.startOk = false ∨
      inp.rIndexTouch = false) :
    startStep s inp = some (s, inp.rands) := by
  unfold startStep
  rcases h with h | h | h <;> simp [h]

theorem startStep_fire {s : GameSt} {inp : FrameInput} {n : Int}
    {rest : List Nat} (hg : s.gameState = false) (ho : inp.startOk = true)
    (ht : inp.rIndexTouch = true)
    (hd : drawUntilDifferent inp.rands s.selectedSphere = some (n, rest)) :
    startStep s inp = some (startedState inp.now n, rest) := by
  unfold startStep random_Highlight
  simp only [hg, ho, ht, Bool.not_false, Bool.and_true, Bool.true_and,
    if_true]
  rw [show ({ s with gameState := true, start := inp.now } :
      GameSt).selectedSphere = s.selectedSphere from rfl] at *
  rw [hd]
  rfl

theorem duration_set_collider (s : GameSt) (b : Bool) (now : Int) :
    duration { s with collider := b } now = duration s now := rfl

theorem activeStep_idle {s : GameSt} {inp : FrameInput}
    (h : s.gameState = false) : activeStep s inp = s := by
  simp [activeStep, h]

theorem activeStep_timeout {s : GameSt} {inp : FrameInput}
    (hg : s.gameState = true) (ht : 60 ≤ duration s inp.now) :
    activeStep s inp =
      { gameState := false
        selectedSphere := -1
        collider := if hitCond s inp then true else s.collider
        start := 0
        score := 0 } := by
  unfold activeStep
  by_cases hc : hitCond s inp = true
  · rw [if_pos hg, if_pos hc,
      if_pos (show (60 : ℚ) ≤ duration { s with collider := true } inp.now
        from ht), if_pos hc]
  · rw [if_pos hg, if_neg hc, if_pos ht, if_neg hc]

theorem activeStep_run {s : GameSt} {inp : FrameInput}
    (hg : s.gameState = true) (ht : ¬ 60 ≤ duration s inp.now) :
    activeStep s inp =
      { s with collider := if hitCond s inp then true else s.collider } := by
  unfold activeStep
  by_cases hc : hitCond s inp = true
  · rw [if_pos hg, if_pos hc,
      if_neg (show ¬ (60 : ℚ) ≤ duration { s with collider := true } inp.now
        from ht), if_pos hc]
  · rw [if_pos hg, if_neg hc, if_neg ht, if_neg hc]

theorem stepFrame_eq (s : GameSt) (inp : FrameInput) :
    stepFrame s inp =
      match startStep s inp with
      | none => none
      | some (s₁, r₁) =>
        match renderLoop (activeStep s₁ inp) r₁ (List.range NUM_SPHERES) with
        | none => none
        | some (s₂, _) => some s₂ := rfl

theorem stepFrame_eq_of_startStep {s : GameSt} {inp : FrameInput}
    {s₁ : GameSt} {r₁ : List Nat} (h : startStep s inp = some (s₁, r₁)) :
    stepFrame s inp =
      match renderLoop (activeStep s₁ inp) r₁ (List.range NUM_SPHERES) with
      | none => none
      | some (s₂, _) => some s₂ := by
  rw [stepFrame_eq, h]

theorem stepFrame_idle_noStart {s : GameSt} {inp : FrameInput}
    (hg : s.gameState = false)
    (h : inp.startOk = false ∨ inp.rIndexTouch = false) :
    stepFrame s inp = some s := by
  rw [stepFrame_eq_of_startStep (startStep_skip (Or.inr h))]
  rw [activeStep_idle hg]
  rw [renderLoop_skip _ _ _ (Or.inr hg)]

theorem stepFrame_active_timeout {s : GameSt} {inp : FrameInput}
    (hg : s.gameState = true) (ht : 60 ≤ duration s inp.now) :
    stepFrame s inp = some
      { gameState := false
        selectedSphere := -1
        collider := if hitCond s inp then true else s.collider
        start := 0
        score := 0 } := by
  rw [stepFrame_eq_of_startStep (startStep_skip (Or.inl hg))]
  rw [activeStep_timeout hg ht]
  rw [renderLoop_skip _ _ _ (Or.inr rfl)]

theorem stepFrame_active_quiet {s : GameSt} {inp : FrameInput}
    (hg : s.gameState = true) (ht : ¬ 60 ≤ duration s inp.now)
    (hc : hitCond s inp = false) (hcol : s.collider = false) :
    stepFrame s inp = some s := by
  rw [stepFrame_eq_of_startStep (startStep_skip (Or.inl hg))]
  rw [activeStep_run hg ht, if_neg (by simp [hc])]
  rw [renderLoop_skip _ _ _ (Or.inl hcol)]

theorem stepFrame_active_hit {s : GameSt} {inp : FrameInput}
    (hg : s.gameState = true) (ht : ¬ 60 ≤ duration s inp.now)
    (hc : hitCond s inp = true) (h0 : 0 ≤ s.selectedSphere)
    (h1 : s.selectedSphere < 125) :
    stepFrame s inp =
      (random_Highlight { s with collider := true } inp.rands).map
        (fun p => { p.1 with score := p.1.score + 1 }) := by
  rw [stepFrame_eq_of_startStep (startStep_skip (Or.inl hg))]
  rw [activeStep_run hg ht, if_pos hc]
  have hmem : ∃ i ∈ List.range NUM_SPHERES,
      (i : Int) = ({ s with collider := true } : GameSt).selectedSphere := by
    refine ⟨s.selectedSphere.toNat, List.mem_range.mpr ?_, ?_⟩
    · simp only [NUM_SPHERES]
      omega
    · simpa using Int.toNat_of_nonneg h0
  rw [renderLoop_hit _ _ _ (by simpa using hg) rfl hmem]
  cases hrh : random_Highlight { s with collider := true } inp.rands with
  | none => rfl
  | some p => rfl

theorem stepFrame_start {s : GameSt} {inp : FrameInput} {n : Int}
    {rest : List Nat} (hg : s.gameState = false) (ho : inp.startOk = true)
    (ht : inp.rIndexTouch = true)
    (hd : drawUntilDifferent inp.rands s.selectedSphere = some (n, rest)) :
    stepFrame s inp =
      if hitCond (startedState inp.now n) inp then
        (random_Highlight
            { startedState inp.now n with collider := true } rest).map
          (fun p => { p.1 with score := p.1.score + 1 })
      else some (startedState inp.now n) := by
  have hdur : ¬ 60 ≤ duration (startedState inp.now n) inp.now := by
    simp [duration, startedState, clocksPerSec]
  have hn := drawUntilDifferent_spec inp.rands s.selectedSphere n rest hd
  rw [stepFrame_eq_of_startStep (startStep_fire hg ho ht hd)]
  by_cases hhc : hitCond (startedState inp.now n) inp = true
  · rw [if_pos hhc, activeStep_run rfl hdur, if_pos hhc]
    have hmem : ∃ i ∈ List.range NUM_SPHERES,
        (i : Int) =
          ({ startedState inp.now n with collider := true } :
            GameSt).selectedSphere := by
      refine ⟨n.toNat, List.mem_range.mpr ?_, ?_⟩
      · simp only [NUM_SPHERES]
        omega
      · simpa [startedState] using Int.toNat_of_nonneg hn.1
    rw [renderLoop_hit _ _ _ rfl rfl hmem]
    cases random_Highlight { startedState inp.now n with collider := true }
        rest with
    | none => rfl
    | some p => rfl
  · rw [if_neg hhc, activeStep_run rfl hdur, if_neg hhc]
    rw [renderLoop_skip _ _ _ (Or.inl rfl)]

theorem Inv_step {s : GameSt} {inp : FrameInput} {s₁ : GameSt}
    (hInv : Inv s) (h : stepFrame s inp = some s₁) : Inv s₁ := by
  obtain ⟨hiff, hrange, hcol⟩ := hInv
  by_cases hg : s.gameState = true
  · by_cases ht : (60 : ℚ) ≤ duration s inp.now
    · rw [stepFrame_active_timeout hg ht] at h
      simp only [Option.some.injEq] at h
      subst h
      exact ⟨by simp, by simp, by simp⟩
    · by_cases hc : hitCond s inp = true
      · obtain ⟨h0, h1⟩ := hrange hg
        rw [stepFrame_active_hit hg ht hc h0 h1] at h
        cases hrh : random_Highlight { s with collider := true }
            inp.rands with
        | none => rw [hrh] at h; simp at h
        | some p =>
          obtain ⟨s₂, r₂⟩ := p
          rw [hrh] at h
          simp only [Option.map_some', Option.some.injEq] at h
          subst h
          obtain ⟨a0, a1, -, acol, agame, -, -⟩ := random_Highlight_spec hrh
          have hg2 : s₂.gameState = true := by simpa [hg] using agame
          refine ⟨?_, fun _ => ⟨by simpa using a0, by simpa using a1⟩,
            fun _ => by simpa using acol⟩
          show s₂.gameState = false ↔ s₂.selectedSphere = -1
          rw [hg2]
          simp only [Bool.true_eq_false, false_iff]
          omega
      · have hcolF : s.collider = false := hcol hg
        rw [stepFrame_active_quiet hg ht (by simpa using hc) hcolF] at h
        simp only [Option.some.injEq] at h
        subst h
        exact ⟨hiff, hrange, fun _ => hcolF⟩
  · have hgf : s.gameState = false := by simpa using hg
    by_cases hstart : inp.startOk = true ∧ inp.rIndexTouch = true
    · cases hdd : drawUntilDifferent inp.rands s.selectedSphere with
      | none =>
        rw [stepFrame_eq] at h
        unfold startStep random_Highlight at h
        simp only [hgf, hstart.1, hstart.2, Bool.not_false, Bool.and_self,
          Bool.true_and, Bool.and_true, if_true] at h
        rw [show ({ s with gameState := true, start := inp.now } :
            GameSt).selectedSphere = s.selectedSphere from rfl, hdd] at h
        simp at h
      | some p =>
        obtain ⟨n, rest⟩ := p
        have hn := drawUntilDifferent_spec inp.rands s.selectedSphere n
          rest hdd
        rw [stepFrame_start hgf hstart.1 hstart.2 hdd] at h
        by_cases hhc : hitCond (startedState inp.now n) inp = true
        · rw [if_pos hhc] at h
          cases hrh : random_Highlight
              { startedState inp.now n with collider := true } rest with
          | none => rw [hrh] at h; simp at h
          | some p₂ =>
            obtain ⟨s₂, r₂⟩ := p₂
            rw [hrh] at h
            simp only [Option.map_some', Option.some.injEq] at h
            subst h
            obtain ⟨a0, a1, -, acol, agame, -, -⟩ :=
              random_Highlight_spec hrh
            have hg2 : s₂.gameState = true := by
              simpa [startedState] using agame
            refine ⟨?_, fun _ => ⟨by simpa using a0, by simpa using a1⟩,
              fun _ => by simpa using acol⟩
            show s₂.gameState = false ↔ s₂.selectedSphere = -1
            rw [hg2]
            simp only [Bool.true_eq_false, false_iff]
            omega
        · rw [if_neg hhc] at h
          simp only [Option.some.injEq] at h
          subst h
          refine ⟨?_, fun _ => ⟨hn.1, hn.2.1⟩, fun _ => rfl⟩
          show true = false ↔ n = -1
          simp only [Bool.true_eq_false, false_iff]
          omega
    · have hor : inp.startOk = false ∨ inp.rIndexTouch = false := by
        by_cases h1 : inp.startOk = true
        · by_cases h2 : inp.rIndexTouch = true
          · exact absurd ⟨h1, h2⟩ hstart
          · exact Or.inr (by simpa using h2)
        · exact Or.inl (by simpa using h1)
      rw [stepFrame_idle_noStart hgf hor] at h
      simp only [Option.some.injEq] at h
      subst h
      exact ⟨hiff, hrange, hcol⟩

theorem spheres_positions_length : spheres_positions.length = 125 := by
  rfl

theorem spherePosAt_zero : spherePosAt 0 = ⟨0, 0, 0⟩ := by
  norm_num [spherePosAt, spheres_positions, GRID_SIZE, List.range_succ]

theorem spherePosAt_three : spherePosAt 3 = ⟨21/50, 0, 0⟩ := by
  have h3 : (3 : Int).toNat = 3 := rfl
  norm_num [spherePosAt, spheres_positions, GRID_SIZE, List.range_succ, h3]

theorem stepFrame_active_noTimeout {s : GameSt} {inp : FrameInput}
    {s₁ : GameSt} (hg : s.gameState = true)
    (ht : ¬ 60 ≤ duration s inp.now) (h : stepFrame s inp = some s₁) :
    s₁.gameState = true ∧ s₁.start = s.start ∧ s.score ≤ s₁.score := by
  rw [stepFrame_eq_of_startStep (startStep_skip (Or.inl hg)),
    activeStep_run hg ht] at h
  cases hrl : renderLoop
      { s with collider := if hitCond s inp then true else s.collider }
      inp.rands (List.range NUM_SPHERES) with
  | none => rw [hrl] at h; simp at h
  | some p =>
    obtain ⟨s₂, r₂⟩ := p
    rw [hrl] at h
    simp only [Option.some.injEq] at h
    subst h
    obtain ⟨pg, pst, psc⟩ := renderLoop_preserves _ _ _ _ _ hrl
    exact ⟨by simpa [hg] using pg, by simpa using pst, by simpa using psc⟩

theorem stepFrame_start_none {s : GameSt} {inp : FrameInput}
    (hg : s.gameState = false) (ho : inp.startOk = true)
    (ht : inp.rIndexTouch = true)
    (hd : drawUntilDifferent inp.rands s.selectedSphere = none) :
    stepFrame s inp = none := by
  rw [stepFrame_eq]
  unfold startStep random_Highlight
  simp only [hg, ho, ht, Bool.not_false, Bool.and_self, Bool.true_and,
    Bool.and_true, if_true]
  rw [show ({ s with gameState := true, start := inp.now } :
      GameSt).selectedSphere = s.selectedSphere from rfl, hd]

theorem hitCond_start_origin : hitCond (startedState 0 0) inpStart = true := by
  simp only [hitCond, inpStart, startedState, grabbedPos]
  norm_num [collides, distSq, hitThreshold, spherePosAt_zero]

theorem hitCond_start_far :
    hitCond (startedState 0 3) inpStartFar = false := by
  simp only [hitCond, inpStartFar, inpStart, startedState, grabbedPos]
  norm_num [collides, distSq, hitThreshold, spherePosAt_three]

theorem hitCond_sActive_origin :
    ∀ inp : FrameInput, inp.hitOk = true → inp.rIndexTouch = true →
      inp.grabOk = false → inp.handRight = ⟨0, 0, 0⟩ →
      hitCond sActive inp = true := by
  intro inp h1 h2 h3 h4
  simp only [hitCond, sActive, grabbedPos, h1, h2, h3, h4]
  norm_num [collides, distSq, hitThreshold, spherePosAt_zero]

theorem stepFrame_initial_start :
    stepFrame initialState inpStart = some
      { gameState := true
        selectedSphere := 1
        collider := false
        start := 0
        score := 1 } := by
  have hd : drawUntilDifferent inpStart.rands initialState.selectedSphere =
      some (0, [1]) := rfl
  rw [show stepFrame initialState inpStart =
      stepFrame initialState inpStart from rfl]
  rw [stepFrame_start rfl rfl rfl hd]
  rw [if_pos (show hitCond (startedState inpStart.now 0) inpStart = true
    from hitCond_start_origin)]
  rfl

theorem stepFrame_initial_startFar :
    stepFrame initialState inpStartFar = some (startedState 0 3) := by
  have hd : drawUntilDifferent inpStartFar.rands
      initialState.selectedSphere = some (3, []) := rfl
  rw [stepFrame_start rfl rfl rfl hd]
  rw [if_neg (show ¬ hitCond (startedState inpStartFar.now 3) inpStartFar =
      true by
    rw [show (inpStartFar.now : Int) = 0 from rfl]
    simp [hitCond_start_far])]
  rfl

theorem stepFrame_sActive_timeoutHit :
    stepFrame sActive inpTimeoutHit = some
      { gameState := false
        selectedSphere := -1
        collider := true
        start := 0
        score := 0 } := by
  rw [stepFrame_active_timeout rfl
    (by norm_num [duration, sActive, inpTimeoutHit, inpStart, clocksPerSec])]
  rw [if_pos (hitCond_sActive_origin inpTimeoutHit rfl rfl rfl rfl)]

theorem stepFrame_sActive_hit :
    stepFrame sActive inpHit = some
      { gameState := true
        selectedSphere := 1
        collider := false
        start := 0
        score := 6 } := by
  rw [stepFrame_active_hit rfl
    (by norm_num [duration, sActive, inpHit, inpStart, clocksPerSec])
    (hitCond_sActive_origin inpHit rfl rfl rfl rfl)
    (by norm_num [sActive]) (by norm_num [sActive])]
  rfl

theorem hitCond_sActive_boundary : hitCond sActive inpBoundary = false := by
  simp only [hitCond, inpBoundary, inpStart, sActive, grabbedPos]
  norm_num [collides, distSq, hitThreshold, spherePosAt_zero]

theorem stepFrame_sActive_boundary :
    stepFrame sActive inpBoundary = some sActive := by
  rw [stepFrame_active_quiet rfl
    (by norm_num [duration, sActive, inpBoundary, inpStart, clocksPerSec])
    hitCond_sActive_boundary rfl]

/-- Claim C1: every terminating call of the "pick new target" operation
`random_Highlight` (the object set has 125 > 1 members) yields a
selected-target index in `[0, 125)` that differs from the index
immediately before the call. -/
theorem claim_C1 {s : GameSt} {rands : List Nat} {s₁ : GameSt}
    {rest : List Nat} (h : random_Highlight s rands = some (s₁, rest)) :
    0 ≤ s₁.selectedSphere ∧ s₁.selectedSphere < 125 ∧
      s₁.selectedSphere ≠ s.selectedSphere := by
  obtain ⟨a, b, c, -, -, -, -⟩ := random_Highlight_spec h
  exact ⟨a, b, c⟩

/-- Witness for claim C1 at a concrete call. -/
theorem claim_C1_witness :
    0 ≤ ({ gameState := false
           selectedSphere := 5
           collider := false
           start := 0
           score := 0 } : GameSt).selectedSphere ∧
      ({ gameState := false
         selectedSphere := 5
         collider := false
         start := 0
         score := 0 } : GameSt).selectedSphere < 125 ∧
      ({ gameState := false
         selectedSphere := 5
         collider := false
         start := 0
         score := 0 } : GameSt).selectedSphere ≠
        initialState.selectedSphere :=
  @claim_C1 initialState [5]
    { gameState := false
      selectedSphere := 5
      collider := false
      start := 0
      score := 0 } [] rfl

/-- Claim C2: while the game is active, the Active-to-Idle transition
fires on a frame iff the elapsed time since round start is at least 60
seconds, and then the active flag becomes false, the selected target is
cleared to -1, and score and timer are reset to 0; once Idle, a frame
with no start trigger leaves the state untouched, so the reset cannot
fire a second time in a round. -/
theorem claim_C2 :
    (∀ (s : GameSt) (inp : FrameInput) (s₁ : GameSt),
      s.gameState = true → stepFrame s inp = some s₁ →
      ((s₁.gameState = false ↔ 60 ≤ duration s inp.now) ∧
        (60 ≤ duration s inp.now →
          s₁.selectedSphere = -1 ∧ s₁.score = 0 ∧ s₁.start = 0))) ∧
    (∀ (s : GameSt) (inp : FrameInput), s.gameState = false →
      inp.startOk = false ∨ inp.rIndexTouch = false →
      stepFrame s inp = some s) := by
  constructor
  · intro s inp s₁ hg hstep
    by_cases ht : (60 : ℚ) ≤ duration s inp.now
    · rw [stepFrame_active_timeout hg ht] at hstep
      simp only [Option.some.injEq] at hstep
      subst hstep
      exact ⟨⟨fun _ => ht, fun _ => rfl⟩, fun _ => ⟨rfl, rfl, rfl⟩⟩
    · obtain ⟨hg1, -, -⟩ := stepFrame_active_noTimeout hg ht hstep
      constructor
      · constructor
        · intro hf
          rw [hg1] at hf
          cases hf
        · intro htt
          exact absurd htt ht
      · intro htt
        exact absurd htt ht
  · intro s inp hg hor
    exact stepFrame_idle_noStart hg hor

/-- Witness for claim C2 at a concrete timeout frame and a concrete idle
frame. -/
theorem claim_C2_witness :
    (sActive.gameState = true ∧
      ((({ gameState := false
           selectedSphere := -1
           collider := true
           start := 0
           score := 0 } : GameSt).gameState = false ↔
          60 ≤ duration sActive inpTimeoutHit.now) ∧
        (60 ≤ duration sActive inpTimeoutHit.now →
          ({ gameState := false
             selectedSphere := -1
             collider := true
             start := 0
             score := 0 } : GameSt).selectedSphere = -1 ∧
            ({ gameState := false
               selectedSphere := -1
               collider := true
               start := 0
               score := 0 } : GameSt).score = 0 ∧
            ({ gameState := false
               selectedSphere := -1
               collider := true
               start := 0
               score := 0 } : GameSt).start = 0))) ∧
      (initialState.gameState = false ∧
        stepFrame initialState inpIdle = some initialState) :=
  ⟨⟨rfl, claim_C2.1 sActive inpTimeoutHit _ rfl stepFrame_sActive_timeoutHit⟩,
    ⟨rfl, claim_C2.2 initialState inpIdle rfl (Or.inr rfl)⟩⟩

/-- Counterexample to claim C3 as stated: a frame that starts the game
from Idle with the hand already on the freshly picked target ends with
score 1, not 0 -- the hit event fires in the same frame as the
Idle-to-Active transition, so the transition is not the frame's only
side effect. -/
theorem claim_C3_counterexample :
    initialState.gameState = false ∧ inpStart.startOk = true ∧
      inpStart.rIndexTouch = true ∧
      stepFrame initialState inpStart = some
        { gameState := true
          selectedSphere := 1
          collider := false
          start := 0
          score := 1 } ∧
      ({ gameState := true
         selectedSphere := 1
         collider := false
         start := 0
         score := 1 } : GameSt).score ≠ 0 :=
  ⟨rfl, rfl, rfl, stepFrame_initial_start, by norm_num⟩

/-- Claim C3 (amended): a frame in which the state is Idle and the
dominant-hand trigger is touched (with the input query succeeding and
the picker loop terminating on draw `n`) transitions to Active with
score 0, round start time sampled, and target `n` picked by the
selection rule -- provided the freshly picked target is not already
colliding with the touched cursor, in which case the hit self-transition
additionally fires within the same frame. -/
theorem claim_C3 {s : GameSt} {inp : FrameInput} {n : Int}
    {rest : List Nat} {s₁ : GameSt} (hg : s.gameState = false)
    (ho : inp.startOk = true) (ht : inp.rIndexTouch = true)
    (hd : drawUntilDifferent inp.rands s.selectedSphere = some (n, rest))
    (hnohit : hitCond (startedState inp.now n) inp = false)
    (hstep : stepFrame s inp = some s₁) :
    s₁.gameState = true ∧ s₁.score = 0 ∧ s₁.start = inp.now ∧
      s₁.selectedSphere = n ∧ 0 ≤ n ∧ n < 125 ∧
      n ≠ s.selectedSphere ∧ s₁.collider = false := by
  have hn := drawUntilDifferent_spec inp.rands s.selectedSphere n rest hd
  rw [stepFrame_start hg ho ht hd, if_neg (by simp [hnohit])] at hstep
  simp only [Option.some.injEq] at hstep
  subst hstep
  exact ⟨rfl, rfl, rfl, rfl, hn.1, hn.2.1, hn.2.2, rfl⟩

/-- Witness for claim C3 at a concrete game-start frame with the hand
far from every sphere. -/
theorem claim_C3_witness :
    (startedState 0 3).gameState = true ∧ (startedState 0 3).score = 0 ∧
      (startedState 0 3).start = inpStartFar.now ∧
      (startedState 0 3).selectedSphere = 3 ∧ (0 : Int) ≤ 3 ∧
      (3 : Int) < 125 ∧ (3 : Int) ≠ initialState.selectedSphere ∧
      (startedState 0 3).collider = false :=
  @claim_C3 initialState inpStartFar 3 [] (startedState 0 3) rfl rfl rfl rfl
    (by rw [show (inpStartFar.now : Int) = 0 from rfl]
        exact hitCond_start_far)
    stepFrame_initial_startFar

/-- Counterexample to claim C4 as stated: on a frame where the hit
preconditions all hold (Active, input query succeeded, distance 0 below
the threshold, trigger touched) but the 60-second budget has elapsed,
no hit occurs -- the state leaves Active and the score is zeroed rather
than incremented. -/
theorem claim_C4_counterexample :
    sActive.gameState = true ∧ inpTimeoutHit.hitOk = true ∧
      inpTimeoutHit.rIndexTouch = true ∧
      distSq (grabbedPos inpTimeoutHit (spherePosAt sActive.selectedSphere))
          inpTimeoutHit.handRight < hitThreshold * hitThreshold ∧
      stepFrame sActive inpTimeoutHit = some
        { gameState := false
          selectedSphere := -1
          collider := true
          start := 0
          score := 0 } ∧
      ({ gameState := false
         selectedSphere := -1
         collider := true
         start := 0
         score := 0 } : GameSt).score ≠ sActive.score + 1 ∧
      ({ gameState := false
         selectedSphere := -1
         collider := true
         start := 0
         score := 0 } : GameSt).gameState ≠ true := by
  refine ⟨rfl, rfl, rfl, ?_, stepFrame_sActive_timeoutHit, by norm_num [sActive],
    by norm_num⟩
  simp only [inpTimeoutHit, inpStart, sActive, grabbedPos]
  norm_num [distSq, hitThreshold, spherePosAt_zero]

/-- Claim C4 (amended): on a frame where the state is Active, the
elapsed time is still below 60 seconds, the input query succeeds, the
grab-transformed target is strictly within the threshold of the
dominant hand, and the trigger is touched, the hit fires: score is
incremented by one, a fresh in-range target differing from the old one
is picked, the debounce flag ends the frame clear, and the state stays
Active with the round start time unchanged. -/
theorem claim_C4 {s : GameSt} {inp : FrameInput} {s₁ : GameSt}
    (hInv : Inv s) (hg : s.gameState = true) (hok : inp.hitOk = true)
    (htouch : inp.rIndexTouch = true)
    (hdist : distSq (grabbedPos inp (spherePosAt s.selectedSphere))
        inp.handRight < hitThreshold * hitThreshold)
    (htime : ¬ 60 ≤ duration s inp.now)
    (hstep : stepFrame s inp = some s₁) :
    s₁.gameState = true ∧ s₁.score = s.score + 1 ∧
      0 ≤ s₁.selectedSphere ∧ s₁.selectedSphere < 125 ∧
      s₁.selectedSphere ≠ s.selectedSphere ∧ s₁.collider = false ∧
      s₁.start = s.start := by
  have hcoll : collides (grabbedPos inp (spherePosAt s.selectedSphere))
      inp.handRight = true := by
    simp only [collides, decide_eq_true_eq]
    exact hdist
  have hc : hitCond s inp = true := by
    simp [hitCond, hok, htouch, hcoll]
  obtain ⟨-, hrange, -⟩ := hInv
  obtain ⟨h0, h1⟩ := hrange hg
  rw [stepFrame_active_hit hg htime hc h0 h1] at hstep
  cases hrh : random_Highlight { s with collider := true } inp.rands with
  | none => rw [hrh] at hstep; simp at hstep
  | some p =>
    obtain ⟨s₂, r₂⟩ := p
    rw [hrh] at hstep
    simp only [Option.map_some', Option.some.injEq] at hstep
    subst hstep
    obtain ⟨a0, a1, a2, acol, agame, astart, asc⟩ :=
      random_Highlight_spec hrh
    refine ⟨by simpa [hg] using agame, ?_, by simpa using a0,
      by simpa using a1, by simpa using a2, by simpa using acol,
      by simpa using astart⟩
    show s₂.score + 1 = s.score + 1
    have : s₂.score = s.score := by simpa using asc
    omega

/-- Witness for claim C4 at a concrete mid-round hit frame. -/
theorem claim_C4_witness :
    ({ gameState := true
       selectedSphere := 1
       collider := false
       start := 0
       score := 6 } : GameSt).gameState = true ∧
      ({ gameState := true
         selectedSphere := 1
         collider := false
         start := 0
         score := 6 } : GameSt).score = sActive.score + 1 ∧
      0 ≤ ({ gameState := true
             selectedSphere := 1
             collider := false
             start := 0
             score := 6 } : GameSt).selectedSphere ∧
      ({ gameState := true
         selectedSphere := 1
         collider := false
         start := 0
         score := 6 } : GameSt).selectedSphere < 125 ∧
      ({ gameState := true
         selectedSphere := 1
         collider := false
         start := 0
         score := 6 } : GameSt).selectedSphere ≠ sActive.selectedSphere ∧
      ({ gameState := true
         selectedSphere := 1
         collider := false
         start := 0
         score := 6 } : GameSt).collider = false ∧
      ({ gameState := true
         selectedSphere := 1
         collider := false
         start := 0
         score := 6 } : GameSt).start = sActive.start :=
  @claim_C4 sActive inpHit
    { gameState := true
      selectedSphere := 1
      collider := false
      start := 0
      score := 6 }
    (by decide) rfl rfl rfl
    (by simp only [inpHit, inpStart, sActive, grabbedPos]
        norm_num [distSq, hitThreshold, spherePosAt_zero])
    (by norm_num [duration, sActive, inpHit, inpStart, clocksPerSec])
    stepFrame_sActive_hit

/-- Claim C5: the collision predicate compares the distance to the fixed
threshold 0.055 with a strict less-than: on a mid-round frame with the
trigger touched, a target at squared distance exactly the squared
threshold produces no hit (the whole game state is unchanged), while a
squared distance strictly below it produces a hit. -/
theorem claim_C5 :
    hitThreshold = 55/1000 ∧
    ∀ (s : GameSt) (inp : FrameInput) (s₁ : GameSt), Inv s →
      s.gameState = true → inp.hitOk = true → inp.rIndexTouch = true →
      ¬ 60 ≤ duration s inp.now → stepFrame s inp = some s₁ →
      ((distSq (grabbedPos inp (spherePosAt s.selectedSphere))
          inp.handRight = hitThreshold * hitThreshold → s₁ = s) ∧
       (distSq (grabbedPos inp (spherePosAt s.selectedSphere))
          inp.handRight < hitThreshold * hitThreshold →
            s₁.score = s.score + 1 ∧
              s₁.selectedSphere ≠ s.selectedSphere)) := by
  refine ⟨rfl, ?_⟩
  intro s inp s₁ hInv hg hok htouch htime hstep
  obtain ⟨-, hrange, hcol⟩ := hInv
  constructor
  · intro heq
    have hcoll : collides (grabbedPos inp (spherePosAt s.selectedSphere))
        inp.handRight = false := by
      simp only [collides, decide_eq_false_iff_not, not_lt, heq, le_refl]
    have hc : hitCond s inp = false := by
      simp [hitCond, hcoll]
    rw [stepFrame_active_quiet hg htime hc (hcol hg)] at hstep
    simp only [Option.some.injEq] at hstep
    exact hstep.symm
  · intro hlt
    have hcoll : collides (grabbedPos inp (spherePosAt s.selectedSphere))
        inp.handRight = true := by
      simp only [collides, decide_eq_true_eq]
      exact hlt
    have hc : hitCond s inp = true := by
      simp [hitCond, hok, htouch, hcoll]
    obtain ⟨h0, h1⟩ := hrange hg
    rw [stepFrame_active_hit hg htime hc h0 h1] at hstep
    cases hrh : random_Highlight { s with collider := true } inp.rands with
    | none => rw [hrh] at hstep; simp at hstep
    | some p =>
      obtain ⟨s₂, r₂⟩ := p
      rw [hrh] at hstep
      simp only [Option.map_some', Option.some.injEq] at hstep
      subst hstep
      obtain ⟨-, -, a2, -, -, -, asc⟩ := random_Highlight_spec hrh
      constructor
      · show s₂.score + 1 = s.score + 1
        have : s₂.score = s.score := by simpa using asc
        omega
      · simpa using a2

/-- Witness for claim C5 at a concrete exact-boundary frame: the hand
sits at distance exactly 0.055 from the selected sphere and no hit
registers. -/
theorem claim_C5_witness :
    distSq (grabbedPos inpBoundary (spherePosAt sActive.selectedSphere))
        inpBoundary.handRight = hitThreshold * hitThreshold ∧
    ((distSq (grabbedPos inpBoundary (spherePosAt sActive.selectedSphere))
        inpBoundary.handRight = hitThreshold * hitThreshold →
          sActive = sActive) ∧
     (distSq (grabbedPos inpBoundary (spherePosAt sActive.selectedSphere))
        inpBoundary.handRight < hitThreshold * hitThreshold →
          sActive.score = sActive.score + 1 ∧
            sActive.selectedSphere ≠ sActive.selectedSphere)) :=
  ⟨by simp only [inpBoundary, inpStart, sActive, grabbedPos]
      norm_num [distSq, hitThreshold, spherePosAt_zero],
   claim_C5.2 sActive inpBoundary sActive (by decide) rfl rfl rfl
     (by norm_num [duration, sActive, inpBoundary, inpStart, clocksPerSec])
     stepFrame_sActive_boundary⟩

/-- Counterexample to claim C6 as stated: the Active-to-Idle timeout
transition also resets the score to 0 (main.cpp line 889), so a score of
5 is zeroed at a point that is not an Idle-to-Active transition. -/
theorem claim_C6_counterexample :
    sActive.gameState = true ∧ sActive.score = 5 ∧
      stepFrame sActive inpTimeoutHit = some
        { gameState := false
          selectedSphere := -1
          collider := true
          start := 0
          score := 0 } ∧
      ({ gameState := false
         selectedSphere := -1
         collider := true
         start := 0
         score := 0 } : GameSt).score = 0 ∧
      ({ gameState := false
         selectedSphere := -1
         collider := true
         start := 0
         score := 0 } : GameSt).score ≠ sActive.score :=
  ⟨rfl, rfl, stepFrame_sActive_timeoutHit, rfl, by norm_num [sActive]⟩

/-- Claim C6 (amended): the score is monotonically non-decreasing across
any frame on which the state stays Active; it is set to 0 by the
Idle-to-Active start (ending the start frame at 1 only when the freshly
picked target is already colliding) and also set to 0 by the
Active-to-Idle timeout; a frame that stays Idle never changes it. -/
theorem claim_C6 :
    (∀ (s : GameSt) (inp : FrameInput) (s₁ : GameSt),
      stepFrame s inp = some s₁ → s.gameState = true →
      s₁.gameState = true → s.score ≤ s₁.score) ∧
    (∀ (s : GameSt) (inp : FrameInput) (s₁ : GameSt),
      stepFrame s inp = some s₁ → s.gameState = true →
      s₁.gameState = false → s₁.score = 0) ∧
    (∀ (s : GameSt) (inp : FrameInput) (s₁ : GameSt),
      s.gameState = false → inp.startOk = true → inp.rIndexTouch = true →
      stepFrame s inp = some s₁ → s₁.score = 0 ∨ s₁.score = 1) ∧
    (∀ (s : GameSt) (inp : FrameInput) (s₁ : GameSt),
      s.gameState = false →
      inp.startOk = false ∨ inp.rIndexTouch = false →
      stepFrame s inp = some s₁ → s₁.score = s.score) := by
  refine ⟨?_, ?_, ?_, ?_⟩
  · intro s inp s₁ hstep hg hg1
    by_cases ht : (60 : ℚ) ≤ duration s inp.now
    · rw [stepFrame_active_timeout hg ht] at hstep
      simp only [Option.some.injEq] at hstep
      subst hstep
      cases hg1
    · obtain ⟨-, -, hsc⟩ := stepFrame_active_noTimeout hg ht hstep
      exact hsc
  · intro s inp s₁ hstep hg hg1
    by_cases ht : (60 : ℚ) ≤ duration s inp.now
    · rw [stepFrame_active_timeout hg ht] at hstep
      simp only [Option.some.injEq] at hstep
      subst hstep
      rfl
    · obtain ⟨hgt, -, -⟩ := stepFrame_active_noTimeout hg ht hstep
      rw [hgt] at hg1
      cases hg1
  · intro s inp s₁ hg ho ht hstep
    cases hd : drawUntilDifferent inp.rands s.selectedSphere with
    | none =>
      rw [stepFrame_start_none hg ho ht hd] at hstep
      exact absurd hstep (by simp)
    | some p =>
      obtain ⟨n, rest⟩ := p
      rw [stepFrame_start hg ho ht hd] at hstep
      by_cases hhc : hitCond (startedState inp.now n) inp = true
      · rw [if_pos hhc] at hstep
        cases hrh : random_Highlight
            { startedState inp.now n with collider := true } rest with
        | none => rw [hrh] at hstep; simp at hstep
        | some p₂ =>
          obtain ⟨s₂, r₂⟩ := p₂
          rw [hrh] at hstep
          simp only [Option.map_some', Option.some.injEq] at hstep
          subst hstep
          obtain ⟨-, -, -, -, -, -, asc⟩ := random_Highlight_spec hrh
          right
          show s₂.score + 1 = 1
          have : s₂.score = 0 := by simpa [startedState] using asc
          omega
      · rw [if_neg hhc] at hstep
        simp only [Option.some.injEq] at hstep
        subst hstep
        exact Or.inl rfl
  · intro s inp s₁ hg hor hstep
    rw [stepFrame_idle_noStart hg hor] at hstep
    simp only [Option.some.injEq] at hstep
    subst hstep
    rfl

/-- Witness for claim C6 at a concrete mid-round hit frame: the score
rises from 5 to 6 while the state stays Active. -/
theorem claim_C6_witness :
    sActive.score ≤ ({ gameState := true
                       selectedSphere := 1
                       collider := false
                       start := 0
                       score := 6 } : GameSt).score :=
  claim_C6.1 sActive inpHit _ stepFrame_sActive_hit rfl rfl

/-- Claim C7: on a frame where the state is Active and the 60-second
budget has elapsed, the timeout takes priority over a hit pending at the
same instant (input query succeeded, distance strictly below the
threshold, trigger touched): the machine goes Idle with the target
cleared to -1 and score and timer reset to 0, and the pending hit
neither increments the score nor selects a new target. -/
theorem claim_C7 {s : GameSt} {inp : FrameInput} {s₁ : GameSt}
    (hg : s.gameState = true) (ht : 60 ≤ duration s inp.now)
    (_hok : inp.hitOk = true) (_htouch : inp.rIndexTouch = true)
    (_hdist : distSq (grabbedPos inp (spherePosAt s.selectedSphere))
        inp.handRight < hitThreshold * hitThreshold)
    (hstep : stepFrame s inp = some s₁) :
    s₁.gameState = false ∧ s₁.selectedSphere = -1 ∧ s₁.score = 0 ∧
      s₁.start = 0 := by
  rw [stepFrame_active_timeout hg ht] at hstep
  simp only [Option.some.injEq] at hstep
  subst hstep
  exact ⟨rfl, rfl, rfl, rfl⟩

/-- Witness for claim C7 at a concrete timeout frame with a pending
hit. -/
theorem claim_C7_witness :
    ({ gameState := false
       selectedSphere := -1
       collider := true
       start := 0
       score := 0 } : GameSt).gameState = false ∧
      ({ gameState := false
         selectedSphere := -1
         collider := true
         start := 0
         score := 0 } : GameSt).selectedSphere = -1 ∧
      ({ gameState := false
         selectedSphere := -1
         collider := true
         start := 0
         score := 0 } : GameSt).score = 0 ∧
      ({ gameState := false
         selectedSphere := -1
         collider := true
         start := 0
         score := 0 } : GameSt).start = 0 :=
  @claim_C7 sActive inpTimeoutHit
    { gameState := false
      selectedSphere := -1
      collider := true
      start := 0
      score := 0 }
    rfl
    (by norm_num [duration, sActive, inpTimeoutHit, inpStart, clocksPerSec])
    rfl rfl
    (by simp only [inpTimeoutHit, inpStart, sActive, grabbedPos]
        norm_num [distSq, hitThreshold, spherePosAt_zero])
    stepFrame_sActive_timeoutHit

/-- Claim C8: a frame on which every input-state query fails behaves
exactly like a frame whose queries succeed but report no input; the
failure is never fatal (the frame step always produces a state), and on
a reachable state the failed-query frame leaves the game state (active
flag, score, selected target) unchanged unless the independent 60-second
timeout fires on that same frame. -/
theorem claim_C8 (s : GameSt) (inp : FrameInput) (hInv : Inv s) :
    stepFrame s (failedInput inp) = stepFrame s (noTouchInput inp) ∧
      (∃ s₁, stepFrame s (failedInput inp) = some s₁) ∧
      (¬ (s.gameState = true ∧ 60 ≤ duration s inp.now) →
        stepFrame s (failedInput inp) = some s) := by
  obtain ⟨-, -, hcol⟩ := hInv
  have hcf : hitCond s (failedInput inp) = false := by
    simp [hitCond, failedInput]
  have hcn : hitCond s (noTouchInput inp) = false := by
    simp [hitCond, noTouchInput]
  by_cases hg : s.gameState = true
  · by_cases ht : (60 : ℚ) ≤ duration s inp.now
    · have e1 := stepFrame_active_timeout hg
        (show (60 : ℚ) ≤ duration s (failedInput inp).now from ht)
      have e2 := stepFrame_active_timeout hg
        (show (60 : ℚ) ≤ duration s (noTouchInput inp).now from ht)
      rw [hcf] at e1
      rw [hcn] at e2
      simp only [Bool.false_eq_true, if_false] at e1 e2
      exact ⟨e1.trans e2.symm, ⟨_, e1⟩, fun hcontra => absurd ⟨hg, ht⟩ hcontra⟩
    · have e1 := stepFrame_active_quiet hg
        (show ¬ (60 : ℚ) ≤ duration s (failedInput inp).now from ht)
        hcf (hcol hg)
      have e2 := stepFrame_active_quiet hg
        (show ¬ (60 : ℚ) ≤ duration s (noTouchInput inp).now from ht)
        hcn (hcol hg)
      exact ⟨e1.trans e2.symm, ⟨s, e1⟩, fun _ => e1⟩
  · have hgf : s.gameState = false := by simpa using hg
    have e1 := stepFrame_idle_noStart hgf
      (Or.inl (show (failedInput inp).startOk = false from rfl))
    have e2 := stepFrame_idle_noStart hgf
      (Or.inr (show (noTouchInput inp).rIndexTouch = false from rfl))
    exact ⟨e1.trans e2.symm, ⟨s, e1⟩, fun _ => e1⟩

/-- Witness for claim C8 at a concrete reachable mid-round state. -/
theorem claim_C8_witness :
    Inv sActive ∧
      (stepFrame sActive (failedInput inpHit) =
          stepFrame sActive (noTouchInput inpHit) ∧
        (∃ s₁, stepFrame sActive (failedInput inpHit) = some s₁) ∧
        (¬ (sActive.gameState = true ∧
            60 ≤ duration sActive inpHit.now) →
          stepFrame sActive (failedInput inpHit) = some sActive)) :=
  ⟨by decide, claim_C8 sActive inpHit (by decide)⟩

/-- Counterexample to claim C9 as stated: a press of the R key is also
recognized -- it recenters the tracking origin, so a non-escape key
event does change application state. -/
theorem claim_C9_counterexample :
    riftApp_onKey GLFW_KEY_R GLFW_PRESS = KeyEffect.recenterTracking ∧
      GLFW_KEY_R ≠ GLFW_KEY_ESCAPE ∧
      KeyEffect.recenterTracking ≠ KeyEffect.noEffect := by
  exact ⟨by decide, by decide, by decide⟩

/-- Claim C9 (amended): the key handler recognizes exactly two keys:
escape (closes the window) and R (recenters the tracking origin); a
press of any other key, or any non-press action, leaves all application
and window state unchanged. -/
theorem claim_C9 :
    (∀ key action : Int, key ≠ GLFW_KEY_ESCAPE → key ≠ GLFW_KEY_R →
      riftApp_onKey key action = KeyEffect.noEffect) ∧
      riftApp_onKey GLFW_KEY_ESCAPE GLFW_PRESS = KeyEffect.closeWindow ∧
      riftApp_onKey GLFW_KEY_R GLFW_PRESS = KeyEffect.recenterTracking ∧
      (∀ key action : Int, action ≠ GLFW_PRESS →
        riftApp_onKey key action = KeyEffect.noEffect) := by
  refine ⟨?_, by decide, by decide, ?_⟩
  · intro k a hk1 hk2
    unfold riftApp_onKey glfwApp_onKey
    rw [if_neg (fun h => hk2 h.2)]
    by_cases ha : a = GLFW_PRESS
    · rw [if_neg (not_not_intro ha), if_neg hk1]
    · rw [if_pos ha]
  · intro k a ha
    unfold riftApp_onKey glfwApp_onKey
    rw [if_neg (fun h => ha h.1), if_pos ha]

/-- Witness for claim C9 at a concrete non-special key (the letter A,
GLFW code 65). -/
theorem claim_C9_witness :
    riftApp_onKey 65 GLFW_PRESS = KeyEffect.noEffect :=
  claim_C9.1 65 GLFW_PRESS (by decide) (by decide)

/-- Claim C10: the frame-boundary invariant holds initially and is
preserved by every frame: the active flag is false exactly when the
selected-target index is -1, and an active game keeps the index in
[0, 125); hence the index into the 125-element sphere-position sequence
is in bounds whenever the game is active. -/
theorem claim_C10 :
    Inv initialState ∧
      (∀ (s : GameSt) (inp : FrameInput) (s₁ : GameSt), Inv s →
        stepFrame s inp = some s₁ → Inv s₁) ∧
      (∀ s : GameSt, Inv s → s.gameState = true →
        s.selectedSphere.toNat < spheres_positions.length) := by
  refine ⟨by decide, fun s inp s₁ h hs => Inv_step h hs, ?_⟩
  intro s hInv hg
  obtain ⟨-, hrange, -⟩ := hInv
  obtain ⟨h0, h1⟩ := hrange hg
  rw [spheres_positions_length]
  omega

/-- Witness for claim C10: the invariant transported across a concrete
game-start frame. -/
theorem claim_C10_witness :
    Inv initialState ∧ Inv (startedState 0 3) :=
  ⟨claim_C10.1,
    claim_C10.2.1 initialState inpStartFar (startedState 0 3) claim_C10.1
      stepFrame_initial_startFar⟩

end WhackAMole
